import Mathlib

/-!
Shallow embedding of the Medical Insurance Agent core
(premium rule engine, Stripe payment-confirmation webhook,
tool-call dispatcher) together with proofs of the spec claims.

Sources embedded:
* `src/services/premium.service.ts` (`calculatePremium`)
* `src/services/payment.service.ts` (`handleStripeWebhook`)
* `src/services/agent.service.ts` (`processMessage` tool branch,
  `applyBusinessLogic`)
-/

deriving instance DecidableEq for Except

namespace InsuranceAgent

/-- A JSON-ish value as it appears in fact maps and rule comparison values
(`number | string | boolean` in the source's `PricingFactor.value` and
`Record<string, any>` details). -/
inductive FactValue
  | num (q : ℚ)
  | str (s : String)
  | bool (b : Bool)
deriving DecidableEq, Repr

/-- A fact map (`details: Record<string, any>`), as an association list. -/
abbrev Facts := List (String × FactValue)

/-- `details[key]`: first binding wins, `none` models `undefined`. -/
def lookupFact (details : Facts) (key : String) : Option FactValue :=
  (details.find? (fun p => p.1 == key)).map (fun p => p.2)

/-- Parse a nonempty run of decimal digits. -/
def parseDigits : List Char → Option Nat
  | [] => none
  | cs =>
    cs.foldl
      (fun acc c =>
        match acc with
        | none => none
        | some n => if c.isDigit then some (n * 10 + (c.toNat - 48)) else none)
      (some 0)

/-- JavaScript `ToNumber` on a string, for plain decimal literals
(optional sign, digits, optional fraction); `none` models `NaN`.
Exponent/hex/`Infinity` spellings of the runtime are out of the modelled
fragment — no pricing fact in the repository uses them. -/
def strToNumber (s : String) : Option ℚ :=
  let t := s.trim
  if t.isEmpty then some 0
  else
    let (sign, cs) :=
      match t.data with
      | '-' :: rest => ((-1 : ℚ), rest)
      | '+' :: rest => ((1 : ℚ), rest)
      | cs => ((1 : ℚ), cs)
    match (String.mk cs).splitOn "." with
    | [intPart] => (parseDigits intPart.data).map (fun n => sign * n)
    | [intPart, fracPart] =>
      if intPart.isEmpty && fracPart.isEmpty then none
      else
        let ip := if intPart.isEmpty then some 0 else parseDigits intPart.data
        let fp := if fracPart.isEmpty then some 0 else parseDigits fracPart.data
        match ip, fp with
        | some i, some f =>
          some (sign * ((i : ℚ) + (f : ℚ) / ((10 : ℚ) ^ fracPart.length)))
        | _, _ => none
    | _ => none

/-- JavaScript `ToNumber` on a fact value; `none` models `NaN`. -/
def toNumber : FactValue → Option ℚ
  | .num q => some q
  | .bool b => some (if b then 1 else 0)
  | .str s => strToNumber s

/-- JavaScript `<` (abstract relational comparison): lexicographic when both
operands are strings, otherwise numeric after coercion, false on `NaN`. -/
def jsLt (v w : FactValue) : Bool :=
  match v, w with
  | .str a, .str b => decide (a < b)
  | _, _ =>
    match toNumber v, toNumber w with
    | some a, some b => decide (a < b)
    | _, _ => false

/-- JavaScript `>`; `a > b` is the relational comparison `b < a`. -/
def jsGt (v w : FactValue) : Bool := jsLt w v

/-- JavaScript loose equality `==` restricted to
`number | string | boolean` operands. -/
def jsEq (v w : FactValue) : Bool :=
  match v, w with
  | .str a, .str b => a == b
  | _, _ =>
    match toNumber v, toNumber w with
    | some a, some b => decide (a = b)
    | _, _ => false

/-- `PricingFactor.condition` (`'lt' | 'gt' | 'eq'`). -/
inductive FactorCondition
  | lt
  | gt
  | eq
deriving DecidableEq, Repr

/-- `PricingFactor.type` (`'multiply' | 'add'`). -/
inductive FactorType
  | multiply
  | add
deriving DecidableEq, Repr

/-- One pricing rule (`PricingFactor` in `premium.service.ts`). -/
structure PricingFactor where
  key : String
  condition : FactorCondition
  value : FactValue
  modifier : ℚ
  type : FactorType
deriving DecidableEq, Repr

/-- The raw `pricingRules` JSON object before validation: `baseRate` may be
absent or a non-number, `factors` is `some` exactly when the JSON value is
an array (`Array.isArray`). -/
structure PricingRulesJson where
  baseRate : Option FactValue
  factors : Option (List PricingFactor)
deriving DecidableEq, Repr

/-- A row of the `InsuranceProduct` table (fields used by the core);
`pricingRules = none` models a null/undefined rules object. -/
structure InsuranceProduct where
  id : String
  type : String
  isActive : Bool
  pricingRules : Option PricingRulesJson
deriving DecidableEq, Repr

/-- The body of the `for (const factor of rules.factors)` loop: skip when the
fact is `undefined`, otherwise test the condition and apply the modifier to
the running total. -/
def applyFactor (details : Facts) (total : ℚ) (factor : PricingFactor) : ℚ :=
  match lookupFact details factor.key with
  | none => total
  | some userValue =>
    let conditionMet :=
      match factor.condition with
      | .lt => jsLt userValue factor.value
      | .gt => jsGt userValue factor.value
      | .eq => jsEq userValue factor.value
    if conditionMet then
      match factor.type with
      | .multiply => total * factor.modifier
      | .add => total + factor.modifier
    else total

/-- The whole rules loop: fold the factors in declaration order over the
running total started at the base rate. -/
def runFactors (details : Facts) (factors : List PricingFactor) (baseRate : ℚ) : ℚ :=
  factors.foldl (applyFactor details) baseRate

/-- JavaScript `Math.round`: half-up, i.e. `⌊x + 1/2⌋`. -/
def jsMathRound (q : ℚ) : ℤ := ⌊q + 1/2⌋

/-- `calculatePremium` of `premium.service.ts`: resolve the product by type,
reject unknown/inactive products and malformed rule objects with a tagged
error, then run the rules engine and round. -/
def calculatePremium (products : List InsuranceProduct) (insuranceType : String)
    (details : Facts) : Except String ℤ :=
  match products.find? (fun p => p.type == insuranceType) with
  | none => .error "Invalid insurance type specified."
  | some product =>
    if !product.isActive then .error "Invalid insurance type specified."
    else
      match product.pricingRules with
      | none => .error "Pricing rules are not configured correctly for this product."
      | some rules =>
        match rules.baseRate, rules.factors with
        | some (.num baseRate), some factors =>
          .ok (jsMathRound (runFactors details factors baseRate))
        | _, _ => .error "Pricing rules are not configured correctly for this product."

/-! ## Persistent store (Prisma tables used by the core) -/

/-- `Quote.status` values (`'draft' | 'quoted' | 'paid'`; the schema default
is `'draft'`). -/
inductive QuoteStatus
  | draft
  | quoted
  | paid
deriving DecidableEq, Repr

/-- A `User` row (fields the core reads). -/
structure DbUser where
  id : String
  whatsappId : Option String
  fullName : Option String
deriving DecidableEq, Repr

/-- A `Quote` row. -/
structure DbQuote where
  id : String
  userId : String
  insuranceProductId : String
  type : String
  status : QuoteStatus
  premium : ℚ
  details : Facts
deriving DecidableEq, Repr

/-- The database state the core touches. -/
structure Db where
  users : List DbUser
  quotes : List DbQuote
  products : List InsuranceProduct
deriving DecidableEq, Repr

/-- `prisma.quote.findUnique({ where: { id } })`. -/
def findQuote (db : Db) (quoteId : String) : Option DbQuote :=
  db.quotes.find? (fun q => q.id == quoteId)

/-- `prisma.user.findUnique({ where: { id } })` (the `include: { user }` of the
webhook query). -/
def findUser (db : Db) (userId : String) : Option DbUser :=
  db.users.find? (fun u => u.id == userId)

/-- `prisma.quote.update({ where: { id }, data: { status } })`. -/
def setQuoteStatus (db : Db) (quoteId : String) (st : QuoteStatus) : Db :=
  { db with
    quotes := db.quotes.map (fun q => if q.id == quoteId then { q with status := st } else q) }

/-- `prisma.user.update({ where: { id }, data: { fullName } })`. -/
def setUserFullName (db : Db) (userId name : String) : Db :=
  { db with
    users := db.users.map (fun u => if u.id == userId then { u with fullName := some name } else u) }

/-! ## Stripe payment-confirmation webhook (`payment.service.ts`) -/

/-- A verified Stripe event: its `type` and the `metadata.quoteId` of the
checkout session (`none` when the metadata is missing). -/
structure StripeEvent where
  type : String
  quoteId : Option String
deriving DecidableEq, Repr

/-- The observable side effects of one webhook invocation, in call order per
channel: `prisma.quote.update` status writes, WhatsApp text messages,
system notes appended to the conversation, `sendDocument` deliveries
(recipient, url, caption, filename), and `generateAndUploadCertificate`
invocations. -/
structure WebhookEffects where
  statusUpdates : List (String × QuoteStatus)
  messages : List (String × String)
  systemNotes : List (String × String)
  documents : List (String × String × String × String)
  certificateRequests : List String
deriving DecidableEq, Repr

/-- No side effects. -/
def noEffects : WebhookEffects := ⟨[], [], [], [], []⟩

/-- The payment-success text sent to the user. -/
def successMessageText (customerName premiumText quoteId : String) : String :=
  "Thank you, " ++ customerName ++ "! Your payment of " ++ premiumText ++
    " RWF for quote #" ++ quoteId.take 8 ++
    " was successful. We are now preparing your insurance certificate."

/-- The system note recorded in the conversation after payment. -/
def systemNoteText (quoteId : String) : String :=
  "Payment for quote " ++ quoteId ++
    " was successfully processed. Certificate generation initiated."

/-- The degraded-service text sent when certificate generation or delivery
fails. -/
def fallbackMessageText : String :=
  "We\x27ve confirmed your payment, but there was an issue generating your certificate. Our team has been notified and will send it to you manually shortly."

/-- Caption used for the certificate document. -/
def certificateCaption : String := "Here is your official Insurance Certificate."

/-- Filename used for the certificate document. -/
def certificateFilename (quoteId : String) : String :=
  "Insurance-Certificate-" ++ quoteId.take 8 ++ ".pdf"

/-- Result of one `handleStripeWebhook` call: the database afterwards, the
side effects performed, and the returned value — `.ok ()` models
`{ received: true }`, `.error` models a thrown exception. -/
structure WebhookResult where
  db : Db
  effects : WebhookEffects
  outcome : Except String Unit
deriving DecidableEq, Repr

/-- `handleStripeWebhook`. The signature check
(`stripe.webhooks.constructEvent`) is the external collaborator: `event =
none` models a payload whose signature did not verify, `some ev` a verified
event. `certGen` is the outcome of `generateAndUploadCertificate` (a URL, or
a throw), `docSendOk` whether `sendDocument` succeeds (it rethrows on
failure); plain `sendMessage` never throws (it swallows errors). -/
def handleStripeWebhook (db : Db) (event : Option StripeEvent)
    (certGen : Except Unit String) (docSendOk : Bool) : WebhookResult :=
  match event with
  | none => ⟨db, noEffects, .error "Webhook signature verification failed."⟩
  | some ev =>
    if ev.type == "checkout.session.completed" then
      match ev.quoteId with
      | none => ⟨db, noEffects, .ok ()⟩
      | some quoteId =>
        match findQuote db quoteId with
        | none => ⟨db, noEffects, .ok ()⟩
        | some quote =>
          match findUser db quote.userId with
          | none => ⟨db, noEffects, .ok ()⟩
          | some user =>
            if quote.status == .paid then ⟨db, noEffects, .ok ()⟩
            else
              let db1 := setQuoteStatus db quoteId .paid
              match user.whatsappId with
              | none => ⟨db1, { noEffects with statusUpdates := [(quoteId, .paid)] }, .ok ()⟩
              | some waId =>
                let customerName := user.fullName.getD "there"
                let successMessage :=
                  successMessageText customerName (toString quote.premium) quote.id
                let base : WebhookEffects :=
                  { statusUpdates := [(quoteId, .paid)],
                    messages := [(waId, successMessage)],
                    systemNotes := [(waId, systemNoteText quote.id)],
                    documents := [],
                    certificateRequests := [quote.id] }
                match certGen with
                | .error _ =>
                  ⟨db1, { base with messages := base.messages ++ [(waId, fallbackMessageText)] },
                    .ok ()⟩
                | .ok certificateUrl =>
                  if docSendOk then
                    ⟨db1,
                      { base with
                        documents :=
                          [(waId, certificateUrl, certificateCaption,
                            certificateFilename quote.id)] },
                      .ok ()⟩
                  else
                    ⟨db1,
                      { base with messages := base.messages ++ [(waId, fallbackMessageText)] },
                      .ok ()⟩
    else ⟨db, noEffects, .ok ()⟩

/-! ## Tool dispatch inside `processMessage` (`agent.service.ts`) -/

/-- Arguments of the `generate_payment_link` tool
(`GeneratePaymentLinkArgs`). -/
structure GeneratePaymentLinkArgs where
  insuranceType : String
  premium : ℚ
  customerName : String
  details : Facts
deriving DecidableEq, Repr

/-- A structured tool invocation emitted by the dialogue model
(`response.functionCalls()[0]`). -/
inductive ToolCall
  | calculatePremiumCall (insuranceType : String) (details : Facts)
  | generatePaymentLinkCall (args : GeneratePaymentLinkArgs)
  | unknownCall (name : String)
deriving DecidableEq, Repr

/-- The `toolResult` value fed back to the model: a premium, a tagged error
object, or the `{ url }` of a checkout session. -/
inductive ToolResult
  | premiumResult (premium : ℤ)
  | errorResult (message : String)
  | urlResult (url : Option String)
deriving DecidableEq, Repr

/-- Result of executing one tool call: the database afterwards and either
the structured `toolResult` (`.ok`) or a thrown exception (`.error`). -/
structure DispatchResult where
  db : Db
  outcome : Except String ToolResult
deriving DecidableEq, Repr

/-- The tool-execution section of `processMessage` (the
`if (functionCalls ...)` branches). `newQuoteId` is the id Prisma generates
for `quote.create`; `checkout` is the outcome of
`createStripeCheckoutSession` (a `{ url }`, or the throw
`'Could not create payment session.'`). For `generate_payment_link` the
user's `fullName` is updated first, then the product is resolved (a missing
product throws), then the Quote is created with status `quoted`, then the
checkout link is requested. -/
def dispatchToolCall (db : Db) (userId : String) (call : ToolCall) (newQuoteId : String)
    (checkout : Except Unit (Option String)) : DispatchResult :=
  match call with
  | .calculatePremiumCall insuranceType details =>
    match calculatePremium db.products insuranceType details with
    | .ok p => ⟨db, .ok (.premiumResult p)⟩
    | .error e => ⟨db, .ok (.errorResult e)⟩
  | .generatePaymentLinkCall args =>
    let db1 := setUserFullName db userId args.customerName
    match db1.products.find? (fun p => p.type == args.insuranceType) with
    | none => ⟨db1, .error ("Product type " ++ args.insuranceType ++ " not found.")⟩
    | some product =>
      let newQuote : DbQuote :=
        { id := newQuoteId, userId := userId, insuranceProductId := product.id,
          type := args.insuranceType, status := .quoted, premium := args.premium,
          details := args.details }
      let db2 := { db1 with quotes := db1.quotes ++ [newQuote] }
      match checkout with
      | .error _ => ⟨db2, .error "Could not create payment session."⟩
      | .ok url => ⟨db2, .ok (.urlResult url)⟩
  | .unknownCall _ => ⟨db, .ok (.errorResult "Unknown function")⟩

/-- `true` when `pat` occurs as a substring of `s` (JavaScript
`String.includes`). -/
def includesText (s pat : String) : Bool := (s.splitOn pat).length ≥ 2

/-- The fixed refusal template of `persona.service.ts`
(`trustAndSafetyPrompt`); its exact wording is irrelevant to the claims. -/
def trustAndSafetyPrompt : String :=
  "I can only help with insurance-related questions. How can I assist you with your insurance needs today?"

/-- `applyBusinessLogic` of `agent.service.ts`: append a disclaimer when the
reply quotes a premium, substitute the refusal template when the reply
declines. -/
def applyBusinessLogic (responseText : String) : String :=
  let finalMessage :=
    if includesText responseText.toLower "premium is" then
      responseText ++
        "\n\n*Note: This quote is based on the details you provided and our standard underwriting rules.*"
    else responseText
  if includesText responseText.toLower "i cannot help" then trustAndSafetyPrompt
  else finalMessage

/-- The generic retry prompt sent by the top-level `catch` of
`processMessage`. -/
def apologyText : String :=
  "I\x27m sorry, I encountered an unexpected error. Could we please try that again?"

/-- Outcome of the tail of one `processMessage` turn: the database, the final
text sent to the user on WhatsApp, and whether the updated conversation
history was persisted. -/
structure TurnResult where
  db : Db
  sentMessage : String
  historyPersisted : Bool
deriving DecidableEq, Repr

/-- The tail of `processMessage` once the model has requested `call`:
execute the tool; on success feed the structured result back to the model
(`continueTurn`), persist the history and send the post-processed reply; a
throw anywhere is caught by the top-level `catch`, which sends the generic
apology and persists nothing. -/
def runToolTurn (db : Db) (userId : String) (call : ToolCall) (newQuoteId : String)
    (checkout : Except Unit (Option String)) (continueTurn : ToolResult → String) :
    TurnResult :=
  let d := dispatchToolCall db userId call newQuoteId checkout
  match d.outcome with
  | .ok r => ⟨d.db, applyBusinessLogic (continueTurn r), true⟩
  | .error _ => ⟨d.db, apologyText, false⟩

/-! ## Helper lemmas -/

/-- `find?` over a conditional pointwise update: when the update preserves
the key, the found element is the updated one. -/
theorem find?_map_ite {α : Type} (key : α → Bool) (upd : α → α) (l : List α) (a : α)
    (hkey : ∀ x, key (upd x) = key x)
    (h : l.find? key = some a) :
    (l.map (fun x => if key x then upd x else x)).find? key = some (upd a) := by
  induction l with
  | nil => simp at h
  | cons x xs ih =>
    by_cases hx : key x = true
    · rw [List.find?_cons_of_pos _ hx] at h
      cases h
      simp only [List.map_cons, if_pos hx]
      exact List.find?_cons_of_pos _ (by rw [hkey]; exact hx)
    · rw [List.find?_cons_of_neg _ (by simpa using hx)] at h
      simp only [List.map_cons, if_neg hx]
      rw [List.find?_cons_of_neg _ (by simpa using hx)]
      exact ih h

/-- A found quote carries the looked-up id. -/
theorem findQuote_id {db : Db} {quoteId : String} {q : DbQuote}
    (h : findQuote db quoteId = some q) : q.id = quoteId := by
  have := List.find?_some h
  simpa using this

/-- A found user carries the looked-up id. -/
theorem findUser_id {db : Db} {userId : String} {u : DbUser}
    (h : findUser db userId = some u) : u.id = userId := by
  have := List.find?_some h
  simpa using this

/-- Updating a quote's status updates exactly the looked-up quote. -/
theorem findQuote_setQuoteStatus {db : Db} {quoteId : String} {q : DbQuote}
    (st : QuoteStatus) (h : findQuote db quoteId = some q) :
    findQuote (setQuoteStatus db quoteId st) quoteId = some { q with status := st } := by
  exact find?_map_ite (fun x : DbQuote => x.id == quoteId)
    (fun x : DbQuote => { x with status := st }) db.quotes q (fun x => rfl) h

/-- Quote-status updates do not touch users. -/
theorem findUser_setQuoteStatus (db : Db) (quoteId : String) (st : QuoteStatus)
    (userId : String) :
    findUser (setQuoteStatus db quoteId st) userId = findUser db userId := rfl

/-- Updating a user's name updates exactly the looked-up user. -/
theorem findUser_setUserFullName {db : Db} {userId : String} {u : DbUser}
    (name : String) (h : findUser db userId = some u) :
    findUser (setUserFullName db userId name) userId = some { u with fullName := some name } := by
  exact find?_map_ite (fun x : DbUser => x.id == userId)
    (fun x : DbUser => { x with fullName := some name }) db.users u (fun x => rfl) h

/-- Name updates do not touch products. -/
theorem products_setUserFullName (db : Db) (userId name : String) :
    (setUserFullName db userId name).products = db.products := rfl

/-- Name updates do not touch quotes. -/
theorem quotes_setUserFullName (db : Db) (userId name : String) :
    (setUserFullName db userId name).quotes = db.quotes := rfl

/-- A webhook event whose quote is already `paid` is acknowledged with no
state change and no side effects (the idempotency guard). -/
theorem handleStripeWebhook_already_paid
    (db : Db) (ev : StripeEvent) (quoteId : String) (q : DbQuote)
    (certGen : Except Unit String) (docSendOk : Bool)
    (hqid : ev.quoteId = some quoteId)
    (hq : findQuote db quoteId = some q)
    (hst : q.status = .paid) :
    handleStripeWebhook db (some ev) certGen docSendOk = ⟨db, noEffects, .ok ()⟩ := by
  by_cases hty : (ev.type == "checkout.session.completed") = true
  · simp only [handleStripeWebhook, hty, if_true, hqid, hq]
    cases hfu : findUser db q.userId with
    | none => rfl
    | some u => simp [hst]
  · simp only [handleStripeWebhook, Bool.not_eq_true] at hty ⊢
    simp [hty]

/-! ## Claim theorems -/

/-- C2: a payment event whose signature does not verify is rejected with an
error surfaced to the caller (the handler throws
`'Webhook signature verification failed.'`), the database is returned
unchanged, and no side effect is performed — in particular no Quote's
status changes. -/
theorem claim_C2_invalid_signature_rejected (db : Db)
    (certGen : Except Unit String) (docSendOk : Bool) :
    handleStripeWebhook db none certGen docSendOk =
      ⟨db, noEffects, .error "Webhook signature verification failed."⟩ := rfl

/-- C1: processing a verified `checkout.session.completed` event for a
Quote in `quoted` status performs exactly one `paid` status update, exactly
one fulfillment invocation and one confirmation message (possibly followed
by the degraded-service fallback, which is not a confirmation), and leaves
the Quote `paid`; replaying the same event against the resulting state
changes nothing and performs no side effects. -/
theorem claim_C1_payment_replay_idempotent
    (db : Db) (ev : StripeEvent) (quoteId : String) (q : DbQuote) (u : DbUser) (waId : String)
    (certGen certGen2 : Except Unit String) (docSendOk docSendOk2 : Bool)
    (hty : ev.type = "checkout.session.completed")
    (hqid : ev.quoteId = some quoteId)
    (hq : findQuote db quoteId = some q)
    (hst : q.status = .quoted)
    (hu : findUser db q.userId = some u)
    (hw : u.whatsappId = some waId) :
    (handleStripeWebhook db (some ev) certGen docSendOk).effects.statusUpdates
        = [(quoteId, .paid)] ∧
    (handleStripeWebhook db (some ev) certGen docSendOk).effects.certificateRequests
        = [q.id] ∧
    ((handleStripeWebhook db (some ev) certGen docSendOk).effects.messages
        = [(waId, successMessageText (u.fullName.getD "there") (toString q.premium) q.id)] ∨
      (handleStripeWebhook db (some ev) certGen docSendOk).effects.messages
        = [(waId, successMessageText (u.fullName.getD "there") (toString q.premium) q.id),
           (waId, fallbackMessageText)]) ∧
    (findQuote (handleStripeWebhook db (some ev) certGen docSendOk).db quoteId).map
        DbQuote.status = some .paid ∧
    handleStripeWebhook (handleStripeWebhook db (some ev) certGen docSendOk).db
        (some ev) certGen2 docSendOk2
      = ⟨(handleStripeWebhook db (some ev) certGen docSendOk).db, noEffects, .ok ()⟩ := by
  have hbeq : (ev.type == "checkout.session.completed") = true := by
    rw [hty]; rfl
  have hpq : (q.status == QuoteStatus.paid) = false := by rw [hst]; rfl
  have hrun :
      handleStripeWebhook db (some ev) certGen docSendOk =
        let db1 := setQuoteStatus db quoteId .paid
        let successMessage :=
          successMessageText (u.fullName.getD "there") (toString q.premium) q.id
        let base : WebhookEffects :=
          { statusUpdates := [(quoteId, .paid)],
            messages := [(waId, successMessage)],
            systemNotes := [(waId, systemNoteText q.id)],
            documents := [],
            certificateRequests := [q.id] }
        match certGen with
        | .error _ =>
          ⟨db1, { base with messages := base.messages ++ [(waId, fallbackMessageText)] },
            .ok ()⟩
        | .ok certificateUrl =>
          if docSendOk then
            ⟨db1,
              { base with
                documents :=
                  [(waId, certificateUrl, certificateCaption, certificateFilename q.id)] },
              .ok ()⟩
          else
            ⟨db1, { base with messages := base.messages ++ [(waId, fallbackMessageText)] },
              .ok ()⟩ := by
    simp only [handleStripeWebhook, hbeq, if_true, hqid, hq, hu, hpq, hw,
      Bool.false_eq_true, if_false]
  have hq1 : findQuote (setQuoteStatus db quoteId .paid) quoteId
      = some { q with status := .paid } := findQuote_setQuoteStatus _ hq
  have hreplay : handleStripeWebhook (setQuoteStatus db quoteId .paid) (some ev)
      certGen2 docSendOk2 = ⟨setQuoteStatus db quoteId .paid, noEffects, .ok ()⟩ :=
    handleStripeWebhook_already_paid _ _ _ _ _ _ hqid hq1 rfl
  refine ⟨?_, ?_, ?_, ?_, ?_⟩ <;> rw [hrun]
  · cases certGen with
    | error e => rfl
    | ok url => cases docSendOk <;> rfl
  · cases certGen with
    | error e => rfl
    | ok url => cases docSendOk <;> rfl
  · cases certGen with
    | error e => exact Or.inr rfl
    | ok url =>
      cases docSendOk with
      | true => exact Or.inl rfl
      | false => exact Or.inr rfl
  · cases certGen with
    | error e =>
      show (findQuote (setQuoteStatus db quoteId .paid) quoteId).map DbQuote.status
          = some .paid
      rw [hq1]; rfl
    | ok url =>
      cases docSendOk <;>
        · show (findQuote (setQuoteStatus db quoteId .paid) quoteId).map DbQuote.status
              = some .paid
          rw [hq1]; rfl
  · cases certGen with
    | error e => exact hreplay
    | ok url => cases docSendOk <;> exact hreplay

/-- A user owning a draft quote. -/
def sampleC3User : DbUser :=
  { id := "u1", whatsappId := some "wa1", fullName := none }

/-- A Quote still in `draft` status (the schema default). -/
def sampleC3Quote : DbQuote :=
  { id := "q1", userId := "u1", insuranceProductId := "p1", type := "motor",
    status := .draft, premium := 500, details := [] }

/-- A database holding the draft quote. -/
def sampleC3Db : Db :=
  { users := [sampleC3User], quotes := [sampleC3Quote], products := [] }

/-- A verified completed-checkout event for the draft quote. -/
def sampleC3Ev : StripeEvent :=
  { type := "checkout.session.completed", quoteId := some "q1" }

/-- C3 counterexample: the handler's guard only excludes `paid` quotes, so a
verified event for a Quote whose status is `draft` (not `quoted`) does
transition it to `paid` — refuting the claim that only strictly-`quoted`
Quotes transition. -/
theorem claim_C3_counterexample :
    (findQuote sampleC3Db "q1").map DbQuote.status = some .draft ∧
    (findQuote (handleStripeWebhook sampleC3Db (some sampleC3Ev) (.ok "https://cert") true).db
        "q1").map DbQuote.status = some .paid ∧
    (handleStripeWebhook sampleC3Db (some sampleC3Ev) (.ok "https://cert") true).effects.statusUpdates
      = [("q1", .paid)] := by
  refine ⟨rfl, rfl, rfl⟩

/-- C3 amended: for a verified completed-checkout event whose Quote and
owning user are found, the Quote transitions to `paid` exactly when its
status is not already `paid` — a `draft` Quote transitions just like a
`quoted` one; only `paid` is excluded. -/
theorem claim_C3_amended_transition_iff_not_paid
    (db : Db) (ev : StripeEvent) (quoteId : String) (q : DbQuote) (u : DbUser)
    (certGen : Except Unit String) (docSendOk : Bool)
    (hty : ev.type = "checkout.session.completed")
    (hqid : ev.quoteId = some quoteId)
    (hq : findQuote db quoteId = some q)
    (hu : findUser db q.userId = some u) :
    (q.status = .paid →
      handleStripeWebhook db (some ev) certGen docSendOk = ⟨db, noEffects, .ok ()⟩) ∧
    (q.status ≠ .paid →
      (findQuote (handleStripeWebhook db (some ev) certGen docSendOk).db quoteId).map
          DbQuote.status = some .paid ∧
      (handleStripeWebhook db (some ev) certGen docSendOk).effects.statusUpdates
        = [(quoteId, .paid)]) := by
  have hbeq : (ev.type == "checkout.session.completed") = true := by
    rw [hty]; rfl
  constructor
  · intro hp
    exact handleStripeWebhook_already_paid _ _ _ _ _ _ hqid hq hp
  · intro hnp
    have hpq : (q.status == QuoteStatus.paid) = false := by
      cases hqs : q.status <;> simp_all
    have hq1 : findQuote (setQuoteStatus db quoteId .paid) quoteId
        = some { q with status := .paid } := findQuote_setQuoteStatus _ hq
    simp only [handleStripeWebhook, hbeq, if_true, hqid, hq, hu, hpq,
      Bool.false_eq_true, if_false]
    have hgoal :
        (findQuote (setQuoteStatus db quoteId .paid) quoteId).map DbQuote.status
          = some QuoteStatus.paid := by rw [hq1]; rfl
    cases hw : u.whatsappId with
    | none => exact ⟨hgoal, rfl⟩
    | some waId =>
      cases certGen with
      | error e => exact ⟨hgoal, rfl⟩
      | ok url =>
        cases docSendOk with
        | true => exact ⟨hgoal, rfl⟩
        | false => exact ⟨hgoal, rfl⟩

/-- C9: when certificate generation throws, or document delivery throws, the
failure is contained: the handler still returns successfully, the Quote
stays `paid`, no document is delivered, and the user receives the
confirmation followed by the degraded-service message promising manual
follow-up. -/
theorem claim_C9_fulfillment_failure_contained
    (db : Db) (ev : StripeEvent) (quoteId : String) (q : DbQuote) (u : DbUser) (waId : String)
    (certGen : Except Unit String) (docSendOk : Bool)
    (hty : ev.type = "checkout.session.completed")
    (hqid : ev.quoteId = some quoteId)
    (hq : findQuote db quoteId = some q)
    (hst : q.status = .quoted)
    (hu : findUser db q.userId = some u)
    (hw : u.whatsappId = some waId)
    (hfail : certGen = .error () ∨ docSendOk = false) :
    (handleStripeWebhook db (some ev) certGen docSendOk).outcome = .ok () ∧
    (findQuote (handleStripeWebhook db (some ev) certGen docSendOk).db quoteId).map
        DbQuote.status = some .paid ∧
    (handleStripeWebhook db (some ev) certGen docSendOk).effects.messages
      = [(waId, successMessageText (u.fullName.getD "there") (toString q.premium) q.id),
         (waId, fallbackMessageText)] ∧
    (handleStripeWebhook db (some ev) certGen docSendOk).effects.documents = [] := by
  have hbeq : (ev.type == "checkout.session.completed") = true := by
    rw [hty]; rfl
  have hpq : (q.status == QuoteStatus.paid) = false := by rw [hst]; rfl
  have hq1 : findQuote (setQuoteStatus db quoteId .paid) quoteId
      = some { q with status := .paid } := findQuote_setQuoteStatus _ hq
  simp only [handleStripeWebhook, hbeq, if_true, hqid, hq, hu, hpq, hw,
    Bool.false_eq_true, if_false]
  have hgoal :
      (findQuote (setQuoteStatus db quoteId .paid) quoteId).map DbQuote.status
        = some QuoteStatus.paid := by rw [hq1]; rfl
  cases certGen with
  | error e => exact ⟨rfl, hgoal, rfl, rfl⟩
  | ok url =>
    cases hfail with
    | inl h => cases h
    | inr h =>
      subst h
      exact ⟨rfl, hgoal, rfl, rfl⟩

/-- C4: concrete scenario A — base rate 60000, a multiply-by-1.4 factor on
driverAge < 25 and an add-10000 factor on carYear < 2010, evaluated on
facts driverAge = 22, carYear = 2008, yields
round(60000 × 1.4 + 10000) = 94000: the rules apply in declaration order to
the running total and the result rounds half-up. -/
theorem claim_C4_scenarioA_premium_94000 :
    calculatePremium
      [{ id := "p1", type := "motor", isActive := true,
         pricingRules := some
           { baseRate := some (.num 60000),
             factors := some
               [{ key := "driverAge", condition := .lt, value := .num 25,
                  modifier := 14/10, type := .multiply },
                { key := "carYear", condition := .lt, value := .num 2010,
                  modifier := 10000, type := .add }] } }]
      "motor"
      [("driverAge", .num 22), ("carYear", .num 2008)]
      = .ok 94000 := by
  simp [calculatePremium, runFactors, applyFactor, lookupFact, jsLt, toNumber, jsMathRound,
    List.find?, List.foldl]
  norm_num

/-- The structural validity check of `calculatePremium` on a product's
`pricingRules`: the object exists, `baseRate` is a number
(`typeof rules.baseRate === 'number'`) and `factors` is an array
(`Array.isArray(rules.factors)`). -/
def rulesWellFormed : Option PricingRulesJson → Bool
  | none => false
  | some rules =>
    (match rules.baseRate with
     | some (.num _) => true
     | _ => false) && rules.factors.isSome

/-- C5: when the referenced product is unknown or inactive, or its rule set
is structurally invalid, `calculatePremium` returns a tagged error result —
never a partial premium. -/
theorem claim_C5_invalid_config_tagged_error
    (products : List InsuranceProduct) (insuranceType : String) (details : Facts)
    (h : (products.find? (fun p => p.type == insuranceType)).all
        (fun p => !(p.isActive && rulesWellFormed p.pricingRules)) = true) :
    ∃ e, calculatePremium products insuranceType details = .error e := by
  unfold calculatePremium
  cases hf : products.find? (fun p => p.type == insuranceType) with
  | none => exact ⟨_, rfl⟩
  | some p =>
    rw [hf] at h
    simp only [Option.all_some] at h
    cases ha : p.isActive with
    | false => exact ⟨"Invalid insurance type specified.", by simp [ha]⟩
    | true =>
      rw [ha] at h
      simp only [Bool.true_and, Bool.not_eq_true'] at h
      cases hr : p.pricingRules with
      | none =>
        exact ⟨"Pricing rules are not configured correctly for this product.",
          by simp [ha, hr]⟩
      | some rules =>
        rw [hr] at h
        cases hb : rules.baseRate with
        | none =>
          cases hfs : rules.factors with
          | none =>
            exact ⟨"Pricing rules are not configured correctly for this product.",
              by simp [ha, hr, hb, hfs]⟩
          | some fs =>
            exact ⟨"Pricing rules are not configured correctly for this product.",
              by simp [ha, hr, hb, hfs]⟩
        | some v =>
          cases v with
          | num b =>
            cases hfs : rules.factors with
            | none =>
              exact ⟨"Pricing rules are not configured correctly for this product.",
                by simp [ha, hr, hb, hfs]⟩
            | some fs =>
              simp [rulesWellFormed, hb, hfs] at h
          | str sv =>
            cases hfs : rules.factors with
            | none =>
              exact ⟨"Pricing rules are not configured correctly for this product.",
                by simp [ha, hr, hb, hfs]⟩
            | some fs =>
              exact ⟨"Pricing rules are not configured correctly for this product.",
                by simp [ha, hr, hb, hfs]⟩
          | bool bv =>
            cases hfs : rules.factors with
            | none =>
              exact ⟨"Pricing rules are not configured correctly for this product.",
                by simp [ha, hr, hb, hfs]⟩
            | some fs =>
              exact ⟨"Pricing rules are not configured correctly for this product.",
                by simp [ha, hr, hb, hfs]⟩

/-- Witness for C5: an inactive product with absent rules is rejected with a
tagged error. -/
theorem claim_C5_invalid_config_tagged_error_witness :
    (([{ id := "p1", type := "motor", isActive := false,
         pricingRules := none }] : List InsuranceProduct).find?
        (fun p => p.type == "motor")).all
      (fun p => !(p.isActive && rulesWellFormed p.pricingRules)) = true ∧
    ∃ e, calculatePremium
        [{ id := "p1", type := "motor", isActive := false, pricingRules := none }]
        "motor" [] = .error e :=
  ⟨rfl,
    claim_C5_invalid_config_tagged_error
      [{ id := "p1", type := "motor", isActive := false, pricingRules := none }]
      "motor" [] rfl⟩

/-- C6: rule application is order-dependent — there is a rule set and fact
map for which an additive factor before a multiplicative factor prices
differently than the reverse declaration order. -/
theorem claim_C6_rule_order_dependent :
    ∃ (addFactor mulFactor : PricingFactor) (details : Facts),
      addFactor.type = .add ∧ mulFactor.type = .multiply ∧
      calculatePremium
          [{ id := "p1", type := "motor", isActive := true,
             pricingRules := some
               { baseRate := some (.num 60000),
                 factors := some [addFactor, mulFactor] } }]
          "motor" details
        ≠ calculatePremium
            [{ id := "p1", type := "motor", isActive := true,
               pricingRules := some
                 { baseRate := some (.num 60000),
                   factors := some [mulFactor, addFactor] } }]
            "motor" details := by
  refine ⟨{ key := "x", condition := .gt, value := .num 0, modifier := 10000, type := .add },
    { key := "x", condition := .gt, value := .num 0, modifier := 2, type := .multiply },
    [("x", .num 1)], rfl, rfl, ?_⟩
  have h1 :
      calculatePremium
          [{ id := "p1", type := "motor", isActive := true,
             pricingRules := some
               { baseRate := some (.num 60000),
                 factors := some
                   [{ key := "x", condition := .gt, value := .num 0, modifier := 10000,
                      type := .add },
                    { key := "x", condition := .gt, value := .num 0, modifier := 2,
                      type := .multiply }] } }]
          "motor" [("x", .num 1)] = .ok 140000 := by
    simp [calculatePremium, runFactors, applyFactor, lookupFact, jsGt, jsLt, toNumber,
      jsMathRound, List.find?, List.foldl]
    norm_num
  have h2 :
      calculatePremium
          [{ id := "p1", type := "motor", isActive := true,
             pricingRules := some
               { baseRate := some (.num 60000),
                 factors := some
                   [{ key := "x", condition := .gt, value := .num 0, modifier := 2,
                      type := .multiply },
                    { key := "x", condition := .gt, value := .num 0, modifier := 10000,
                      type := .add }] } }]
          "motor" [("x", .num 1)] = .ok 130000 := by
    simp [calculatePremium, runFactors, applyFactor, lookupFact, jsGt, jsLt, toNumber,
      jsMathRound, List.find?, List.foldl]
    norm_num
  rw [h1, h2]
  simp

/-- Whether the error checks of `calculatePremium` fire is independent of the
fact map: the product lookup and rule validation never inspect `details`. -/
theorem calculatePremium_isOk_details_independent
    (products : List InsuranceProduct) (insuranceType : String) (d1 d2 : Facts) :
    (calculatePremium products insuranceType d1).isOk
      = (calculatePremium products insuranceType d2).isOk := by
  unfold calculatePremium
  cases hf : products.find? (fun p => p.type == insuranceType) with
  | none => rfl
  | some p =>
    cases ha : p.isActive with
    | false => simp [ha]
    | true =>
      cases hr : p.pricingRules with
      | none => simp [ha, hr]
      | some rules =>
        cases hb : rules.baseRate with
        | none => cases hfs : rules.factors <;> simp [ha, hr, hb, hfs, Except.isOk, Except.toBool]
        | some v =>
          cases v with
          | num b => cases hfs : rules.factors <;> simp [ha, hr, hb, hfs, Except.isOk, Except.toBool]
          | str sv => cases hfs : rules.factors <;> simp [ha, hr, hb, hfs, Except.isOk, Except.toBool]
          | bool bv => cases hfs : rules.factors <;> simp [ha, hr, hb, hfs, Except.isOk, Except.toBool]

/-- C7: a factor whose fact key is absent from the fact map is skipped — the
fold over the factors with it equals the fold without it — and the absence
of facts never makes the evaluation return an error. -/
theorem claim_C7_absent_fact_skipped
    (products : List InsuranceProduct) (insuranceType : String) (details : Facts)
    (fs1 fs2 : List PricingFactor) (factor : PricingFactor) (baseRate : ℚ)
    (h : lookupFact details factor.key = none) :
    runFactors details (fs1 ++ factor :: fs2) baseRate
      = runFactors details (fs1 ++ fs2) baseRate ∧
    (calculatePremium products insuranceType details).isOk
      = (calculatePremium products insuranceType []).isOk := by
  constructor
  · simp [runFactors, List.foldl_append, List.foldl_cons, applyFactor, h]
  · exact calculatePremium_isOk_details_independent products insuranceType details []

/-- A factor on a key that the empty fact map lacks. -/
def sampleC7Factor : PricingFactor :=
  { key := "driverAge", condition := .lt, value := .num 25, modifier := 2,
    type := .multiply }

/-- A well-configured one-product catalog with no factors. -/
def sampleC7Products : List InsuranceProduct :=
  [{ id := "p1", type := "motor", isActive := true,
     pricingRules := some { baseRate := some (.num 60000), factors := some [] } }]

/-- Witness for C7: a lone driverAge factor is skipped on an empty fact map
and the evaluation still succeeds. -/
theorem claim_C7_absent_fact_skipped_witness :
    lookupFact [] sampleC7Factor.key = none ∧
    (runFactors [] ([] ++ sampleC7Factor :: []) 60000 = runFactors [] ([] ++ []) 60000 ∧
      (calculatePremium sampleC7Products "motor" []).isOk
        = (calculatePremium sampleC7Products "motor" []).isOk) :=
  ⟨rfl,
    claim_C7_absent_fact_skipped sampleC7Products "motor" [] [] [] sampleC7Factor 60000 rfl⟩

/-- A catalog without the requested product type, and one user profile. -/
def sampleC8Db : Db :=
  { users := [{ id := "u1", whatsappId := some "wa1", fullName := none }],
    quotes := [], products := [] }

/-- A payment-link request for the unknown product type `motor`. -/
def sampleC8Args : GeneratePaymentLinkArgs :=
  { insuranceType := "motor", premium := 50000, customerName := "Alice", details := [] }

/-- C8 counterexample: for an unknown product type the dispatcher does not
return a structured error result — it throws
(`Product type motor not found.`), so the turn aborts: the top-level catch
sends the generic apology instead of a model-composed reply, the updated
history is not persisted, and no Quote is created. -/
theorem claim_C8_counterexample :
    (dispatchToolCall sampleC8Db "u1" (.generatePaymentLinkCall sampleC8Args) "q1"
        (.ok (some "https://pay"))).outcome
      = .error "Product type motor not found." ∧
    (dispatchToolCall sampleC8Db "u1" (.generatePaymentLinkCall sampleC8Args) "q1"
        (.ok (some "https://pay"))).db.quotes = [] ∧
    (runToolTurn sampleC8Db "u1" (.generatePaymentLinkCall sampleC8Args) "q1"
        (.ok (some "https://pay")) (fun _ => "final reply")).sentMessage = apologyText ∧
    (runToolTurn sampleC8Db "u1" (.generatePaymentLinkCall sampleC8Args) "q1"
        (.ok (some "https://pay")) (fun _ => "final reply")).historyPersisted = false :=
  ⟨rfl, rfl, rfl, rfl⟩

/-- C8 amended: a `generate_payment_link` call whose product type resolves
to no product makes the dispatcher throw
`Product type X not found.`; the throw aborts the turn (the top-level catch
sends the generic apology and skips history persistence) and no Quote
record is created. -/
theorem claim_C8_amended_unknown_product_throws
    (db : Db) (userId newQuoteId : String) (args : GeneratePaymentLinkArgs)
    (checkout : Except Unit (Option String)) (continueTurn : ToolResult → String)
    (h : db.products.find? (fun p => p.type == args.insuranceType) = none) :
    (dispatchToolCall db userId (.generatePaymentLinkCall args) newQuoteId checkout).outcome
      = .error ("Product type " ++ args.insuranceType ++ " not found.") ∧
    (dispatchToolCall db userId (.generatePaymentLinkCall args) newQuoteId checkout).db.quotes
      = db.quotes ∧
    runToolTurn db userId (.generatePaymentLinkCall args) newQuoteId checkout continueTurn
      = ⟨setUserFullName db userId args.customerName, apologyText, false⟩ := by
  have h1 : (setUserFullName db userId args.customerName).products.find?
      (fun p => p.type == args.insuranceType) = none := by
    rw [products_setUserFullName]; exact h
  refine ⟨?_, ?_, ?_⟩
  · simp only [dispatchToolCall, h1]
  · simp only [dispatchToolCall, h1]
    exact quotes_setUserFullName db userId args.customerName
  · simp only [runToolTurn, dispatchToolCall, h1]

/-- Witness for the amended C8. -/
theorem claim_C8_amended_unknown_product_throws_witness :
    sampleC8Db.products.find? (fun p => p.type == sampleC8Args.insuranceType) = none ∧
    ((dispatchToolCall sampleC8Db "u1" (.generatePaymentLinkCall sampleC8Args) "q1"
        (.ok (some "https://pay"))).outcome
      = .error ("Product type " ++ sampleC8Args.insuranceType ++ " not found.") ∧
    (dispatchToolCall sampleC8Db "u1" (.generatePaymentLinkCall sampleC8Args) "q1"
        (.ok (some "https://pay"))).db.quotes = sampleC8Db.quotes ∧
    runToolTurn sampleC8Db "u1" (.generatePaymentLinkCall sampleC8Args) "q1"
        (.ok (some "https://pay")) (fun _ => "final reply")
      = ⟨setUserFullName sampleC8Db "u1" sampleC8Args.customerName, apologyText, false⟩) :=
  ⟨rfl,
    claim_C8_amended_unknown_product_throws sampleC8Db "u1" "q1" sampleC8Args
      (.ok (some "https://pay")) (fun _ => "final reply") rfl⟩

/-- C10: in a `generate_payment_link` tool call the user's stored `fullName`
is set to the supplied customer name before the product is resolved, so the
update persists even when the product type is unknown and no Quote is
created. -/
theorem claim_C10_fullName_updated_unconditionally
    (db : Db) (userId newQuoteId : String) (u : DbUser) (args : GeneratePaymentLinkArgs)
    (checkout : Except Unit (Option String))
    (hu : findUser db userId = some u) :
    findUser (dispatchToolCall db userId (.generatePaymentLinkCall args) newQuoteId
        checkout).db userId
      = some { u with fullName := some args.customerName } ∧
    (db.products.find? (fun p => p.type == args.insuranceType) = none →
      (dispatchToolCall db userId (.generatePaymentLinkCall args) newQuoteId checkout).db.quotes
        = db.quotes) := by
  have h1 : findUser (setUserFullName db userId args.customerName) userId
      = some { u with fullName := some args.customerName } :=
    findUser_setUserFullName _ hu
  constructor
  · simp only [dispatchToolCall]
    cases hp : (setUserFullName db userId args.customerName).products.find?
        (fun p => p.type == args.insuranceType) with
    | none => exact h1
    | some product =>
      cases checkout with
      | error e => exact h1
      | ok url => exact h1
  · intro hnone
    have h2 : (setUserFullName db userId args.customerName).products.find?
        (fun p => p.type == args.insuranceType) = none := by
      rw [products_setUserFullName]; exact hnone
    simp only [dispatchToolCall, h2]
    exact quotes_setUserFullName db userId args.customerName

/-- The user whose profile gets renamed. -/
def sampleC10User : DbUser :=
  { id := "u1", whatsappId := some "wa1", fullName := none }

/-- A database with that user and no products. -/
def sampleC10Db : Db :=
  { users := [sampleC10User], quotes := [], products := [] }

/-- A payment-link request naming the customer. -/
def sampleC10Args : GeneratePaymentLinkArgs :=
  { insuranceType := "motor", premium := 50000, customerName := "Carol", details := [] }

/-- Witness for C10. -/
theorem claim_C10_fullName_updated_unconditionally_witness :
    findUser sampleC10Db "u1" = some sampleC10User ∧
    (findUser (dispatchToolCall sampleC10Db "u1" (.generatePaymentLinkCall sampleC10Args)
          "q1" (.ok (some "https://pay"))).db "u1"
        = some { sampleC10User with fullName := some sampleC10Args.customerName } ∧
      (sampleC10Db.products.find? (fun p => p.type == sampleC10Args.insuranceType) = none →
        (dispatchToolCall sampleC10Db "u1" (.generatePaymentLinkCall sampleC10Args) "q1"
            (.ok (some "https://pay"))).db.quotes = sampleC10Db.quotes)) :=
  ⟨rfl,
    claim_C10_fullName_updated_unconditionally sampleC10Db "u1" "q1" sampleC10User
      sampleC10Args (.ok (some "https://pay")) rfl⟩

/-- The paying customer of the replay scenario. -/
def sampleC1User : DbUser :=
  { id := "u1", whatsappId := some "wa1", fullName := some "Alice" }

/-- A Quote awaiting payment. -/
def sampleC1Quote : DbQuote :=
  { id := "q1", userId := "u1", insuranceProductId := "p1", type := "motor",
    status := .quoted, premium := 500, details := [] }

/-- A database holding the quoted Quote. -/
def sampleC1Db : Db :=
  { users := [sampleC1User], quotes := [sampleC1Quote], products := [] }

/-- A verified completed-checkout event for that Quote. -/
def sampleC1Ev : StripeEvent :=
  { type := "checkout.session.completed", quoteId := some "q1" }

/-- Witness for C1. -/
theorem claim_C1_payment_replay_idempotent_witness :
    sampleC1Ev.type = "checkout.session.completed" ∧
    sampleC1Ev.quoteId = some "q1" ∧
    findQuote sampleC1Db "q1" = some sampleC1Quote ∧
    sampleC1Quote.status = .quoted ∧
    findUser sampleC1Db sampleC1Quote.userId = some sampleC1User ∧
    sampleC1User.whatsappId = some "wa1" ∧
    ((handleStripeWebhook sampleC1Db (some sampleC1Ev) (.ok "https://cert")
          true).effects.statusUpdates
        = [("q1", .paid)] ∧
      (handleStripeWebhook sampleC1Db (some sampleC1Ev) (.ok "https://cert")
          true).effects.certificateRequests
        = [sampleC1Quote.id] ∧
      ((handleStripeWebhook sampleC1Db (some sampleC1Ev) (.ok "https://cert")
            true).effects.messages
          = [("wa1", successMessageText (sampleC1User.fullName.getD "there")
              (toString sampleC1Quote.premium) sampleC1Quote.id)] ∨
        (handleStripeWebhook sampleC1Db (some sampleC1Ev) (.ok "https://cert")
            true).effects.messages
          = [("wa1", successMessageText (sampleC1User.fullName.getD "there")
              (toString sampleC1Quote.premium) sampleC1Quote.id),
             ("wa1", fallbackMessageText)]) ∧
      (findQuote (handleStripeWebhook sampleC1Db (some sampleC1Ev) (.ok "https://cert")
            true).db "q1").map DbQuote.status = some .paid ∧
      handleStripeWebhook
          (handleStripeWebhook sampleC1Db (some sampleC1Ev) (.ok "https://cert") true).db
          (some sampleC1Ev) (.ok "https://cert") true
        = ⟨(handleStripeWebhook sampleC1Db (some sampleC1Ev) (.ok "https://cert") true).db,
            noEffects, .ok ()⟩) :=
  ⟨rfl, rfl, rfl, rfl, rfl, rfl,
    claim_C1_payment_replay_idempotent sampleC1Db sampleC1Ev "q1" sampleC1Quote sampleC1User
      "wa1" (.ok "https://cert") (.ok "https://cert") true true rfl rfl rfl rfl rfl rfl⟩

/-- Witness for the amended C3 (at the draft quote of the counterexample). -/
theorem claim_C3_amended_transition_iff_not_paid_witness :
    sampleC3Ev.type = "checkout.session.completed" ∧
    sampleC3Ev.quoteId = some "q1" ∧
    findQuote sampleC3Db "q1" = some sampleC3Quote ∧
    findUser sampleC3Db sampleC3Quote.userId = some sampleC3User ∧
    ((sampleC3Quote.status = .paid →
        handleStripeWebhook sampleC3Db (some sampleC3Ev) (.ok "https://cert") true
          = ⟨sampleC3Db, noEffects, .ok ()⟩) ∧
      (sampleC3Quote.status ≠ .paid →
        (findQuote (handleStripeWebhook sampleC3Db (some sampleC3Ev) (.ok "https://cert")
              true).db "q1").map DbQuote.status = some .paid ∧
        (handleStripeWebhook sampleC3Db (some sampleC3Ev) (.ok "https://cert")
            true).effects.statusUpdates
          = [("q1", .paid)])) :=
  ⟨rfl, rfl, rfl, rfl,
    claim_C3_amended_transition_iff_not_paid sampleC3Db sampleC3Ev "q1" sampleC3Quote
      sampleC3User (.ok "https://cert") true rfl rfl rfl rfl⟩

/-- The customer of the failed-fulfillment scenario. -/
def sampleC9User : DbUser :=
  { id := "u1", whatsappId := some "wa1", fullName := some "Bob" }

/-- A Quote awaiting payment. -/
def sampleC9Quote : DbQuote :=
  { id := "q1", userId := "u1", insuranceProductId := "p1", type := "motor",
    status := .quoted, premium := 750, details := [] }

/-- A database holding that Quote. -/
def sampleC9Db : Db :=
  { users := [sampleC9User], quotes := [sampleC9Quote], products := [] }

/-- A verified completed-checkout event for that Quote. -/
def sampleC9Ev : StripeEvent :=
  { type := "checkout.session.completed", quoteId := some "q1" }

/-- Witness for C9 (certificate generation throws). -/
theorem claim_C9_fulfillment_failure_contained_witness :
    sampleC9Ev.type = "checkout.session.completed" ∧
    sampleC9Ev.quoteId = some "q1" ∧
    findQuote sampleC9Db "q1" = some sampleC9Quote ∧
    sampleC9Quote.status = .quoted ∧
    findUser sampleC9Db sampleC9Quote.userId = some sampleC9User ∧
    sampleC9User.whatsappId = some "wa1" ∧
    ((.error () : Except Unit String) = .error () ∨ true = false) ∧
    ((handleStripeWebhook sampleC9Db (some sampleC9Ev) (.error ()) true).outcome = .ok () ∧
      (findQuote (handleStripeWebhook sampleC9Db (some sampleC9Ev) (.error ()) true).db
          "q1").map DbQuote.status = some .paid ∧
      (handleStripeWebhook sampleC9Db (some sampleC9Ev) (.error ()) true).effects.messages
        = [("wa1", successMessageText (sampleC9User.fullName.getD "there")
            (toString sampleC9Quote.premium) sampleC9Quote.id),
           ("wa1", fallbackMessageText)] ∧
      (handleStripeWebhook sampleC9Db (some sampleC9Ev) (.error ()) true).effects.documents
        = []) :=
  ⟨rfl, rfl, rfl, rfl, rfl, rfl, Or.inl rfl,
    claim_C9_fulfillment_failure_contained sampleC9Db sampleC9Ev "q1" sampleC9Quote
      sampleC9User "wa1" (.error ()) true rfl rfl rfl rfl rfl rfl (Or.inl rfl)⟩

end InsuranceAgent
